import Mathlib

/-!
Verification of the manufacturing simulation engine
(`backend/services/enhanced_simulation_engine.py`).

Python floats are modelled as exact rationals (ℚ); Python ints as ℤ/ℕ.
Guarded divisions in the source become guarded divisions here, so every
function is total, mirroring the source's no-exception behaviour.
-/

namespace EnhancedSim

/-- Detailed cost breakdown for manufacturing operations
(dataclass `CostBreakdown`). -/
structure CostBreakdown where
  direct_labor_cost : ℚ := 0
  indirect_labor_cost : ℚ := 0
  overtime_cost : ℚ := 0
  benefits_cost : ℚ := 0
  rework_cost : ℚ := 0
  scrap_cost : ℚ := 0
  inspection_cost : ℚ := 0
  warranty_cost : ℚ := 0
  carrying_cost : ℚ := 0
  obsolescence_cost : ℚ := 0
  storage_cost : ℚ := 0
  insurance_cost : ℚ := 0
  agent_salaries : ℚ := 0
  system_costs : ℚ := 0
  training_costs : ℚ := 0
  deriving DecidableEq, Repr

/-- Enhanced baseline model (dataclass `EnhancedBaselineModel`), holding the
P&L aggregates and the operational profile. -/
structure EnhancedBaselineModel where
  revenue : ℚ
  cogs : ℚ
  labor_costs : ℚ
  overhead_costs : ℚ
  production_volume : ℤ
  employee_count : ℤ
  automation_level : String
  deriving DecidableEq, Repr

/-- Embedding of `EnhancedBaselineModel._calculate_detailed_costs`, which the
dataclass runs in `__post_init__`: breaks the high-level P&L aggregates into
the detailed cost categories. -/
def _calculate_detailed_costs (labor_costs cogs overhead_costs : ℚ) : CostBreakdown :=
  let total_labor := labor_costs
  let quality_portion := cogs * 0.15
  let inventory_portion := overhead_costs * 0.25
  let service_portion := overhead_costs * 0.10
  { direct_labor_cost := total_labor * 0.7
    indirect_labor_cost := total_labor * 0.2
    overtime_cost := total_labor * 0.05
    benefits_cost := total_labor * 0.05
    rework_cost := quality_portion * 0.4
    scrap_cost := quality_portion * 0.3
    inspection_cost := quality_portion * 0.2
    warranty_cost := quality_portion * 0.1
    carrying_cost := inventory_portion * 0.6
    storage_cost := inventory_portion * 0.25
    obsolescence_cost := inventory_portion * 0.10
    insurance_cost := inventory_portion * 0.05
    agent_salaries := service_portion * 0.7
    system_costs := service_portion * 0.2
    training_costs := service_portion * 0.1 }

/-- The cost breakdown attached to a baseline (computed in `__post_init__`). -/
def EnhancedBaselineModel.cost_breakdown (b : EnhancedBaselineModel) : CostBreakdown :=
  _calculate_detailed_costs b.labor_costs b.cogs b.overhead_costs

/-- Result dictionary of `calculate_labor_optimization`. -/
structure LaborOptResult where
  direct_labor_savings : ℚ
  indirect_labor_savings : ℚ
  overtime_savings : ℚ
  total_annual_savings : ℚ
  training_cost : ℚ
  implementation_cost : ℚ
  net_savings_year_1 : ℚ
  payback_months : ℚ
  roi_percentage : ℚ
  deriving DecidableEq, Repr

/-- Embedding of `EnhancedSimulationEngine.calculate_labor_optimization`. -/
def calculate_labor_optimization (baseline : EnhancedBaselineModel)
    (automation_level : ℚ) : LaborOptResult :=
  let productivity_gain := 0.25 * automation_level
  let error_reduction := 0.30 * automation_level
  let overtime_reduction := 0.35 * automation_level
  let direct_labor_savings0 := baseline.cost_breakdown.direct_labor_cost * productivity_gain
  let indirect_labor_savings := baseline.cost_breakdown.indirect_labor_cost * (error_reduction * 0.5)
  let overtime_savings := baseline.cost_breakdown.overtime_cost * overtime_reduction
  let direct_labor_savings :=
    if baseline.employee_count > 200 then direct_labor_savings0 * 1.15
    else if baseline.employee_count < 25 then direct_labor_savings0 * 0.85
    else direct_labor_savings0
  let implementation_cost_multiplier : ℚ :=
    if baseline.employee_count > 200 then 0.015
    else if baseline.employee_count < 25 then 0.025
    else 0.02
  let base_training_cost : ℚ := if baseline.employee_count < 50 then 800 else 1200
  let training_cost := (baseline.employee_count : ℚ) * base_training_cost * automation_level
  let implementation_cost := baseline.revenue * implementation_cost_multiplier * automation_level
  let total_annual_savings := direct_labor_savings + indirect_labor_savings + overtime_savings
  let net_savings_year_1 := total_annual_savings - training_cost - implementation_cost
  { direct_labor_savings := direct_labor_savings
    indirect_labor_savings := indirect_labor_savings
    overtime_savings := overtime_savings
    total_annual_savings := total_annual_savings
    training_cost := training_cost
    implementation_cost := implementation_cost
    net_savings_year_1 := net_savings_year_1
    payback_months :=
      if total_annual_savings > 0 then
        (training_cost + implementation_cost) / (total_annual_savings / 12)
      else 999
    roi_percentage :=
      if (training_cost + implementation_cost) > 0 then
        net_savings_year_1 / (training_cost + implementation_cost) * 100
      else 0 }

/-- Result dictionary of `calculate_quality_optimization`. -/
structure QualityOptResult where
  rework_savings : ℚ
  scrap_savings : ℚ
  inspection_savings : ℚ
  warranty_savings : ℚ
  total_annual_savings : ℚ
  quality_system_cost : ℚ
  training_cost : ℚ
  net_savings_year_1 : ℚ
  payback_months : ℚ
  roi_percentage : ℚ
  deriving DecidableEq, Repr

/-- Embedding of `EnhancedSimulationEngine.calculate_quality_optimization`. -/
def calculate_quality_optimization (baseline : EnhancedBaselineModel)
    (automation_level : ℚ) : QualityOptResult :=
  let defect_reduction := 0.50 * automation_level
  let rework_reduction := 0.60 * automation_level
  let scrap_reduction := 0.40 * automation_level
  let rework_savings0 := baseline.cost_breakdown.rework_cost * rework_reduction
  let scrap_savings0 := baseline.cost_breakdown.scrap_cost * scrap_reduction
  let inspection_savings := baseline.cost_breakdown.inspection_cost * (defect_reduction * 0.3)
  let warranty_savings := baseline.cost_breakdown.warranty_cost * defect_reduction
  let rework_savings :=
    if baseline.production_volume > 1000000 then rework_savings0 * 1.2
    else if baseline.production_volume < 100000 then rework_savings0 * 0.8
    else rework_savings0
  let scrap_savings :=
    if baseline.production_volume > 1000000 then scrap_savings0 * 1.2
    else if baseline.production_volume < 100000 then scrap_savings0 * 0.8
    else scrap_savings0
  let quality_system_cost_multiplier : ℚ :=
    if baseline.production_volume > 1000000 then 0.008
    else if baseline.production_volume < 100000 then 0.015
    else 0.012
  let quality_system_cost := baseline.revenue * quality_system_cost_multiplier * automation_level
  let training_cost := (baseline.employee_count : ℚ) * 600 * automation_level
  let total_annual_savings := rework_savings + scrap_savings + inspection_savings + warranty_savings
  let net_savings_year_1 := total_annual_savings - quality_system_cost - training_cost
  { rework_savings := rework_savings
    scrap_savings := scrap_savings
    inspection_savings := inspection_savings
    warranty_savings := warranty_savings
    total_annual_savings := total_annual_savings
    quality_system_cost := quality_system_cost
    training_cost := training_cost
    net_savings_year_1 := net_savings_year_1
    payback_months :=
      if total_annual_savings > 0 then
        (quality_system_cost + training_cost) / (total_annual_savings / 12)
      else 999
    roi_percentage :=
      if (quality_system_cost + training_cost) > 0 then
        net_savings_year_1 / (quality_system_cost + training_cost) * 100
      else 0 }

/-- Result dictionary of `calculate_inventory_optimization`. -/
structure InventoryOptResult where
  carrying_cost_savings : ℚ
  storage_savings : ℚ
  obsolescence_savings : ℚ
  working_capital_benefit : ℚ
  working_capital_freed : ℚ
  total_annual_savings : ℚ
  system_cost : ℚ
  training_cost : ℚ
  net_savings_year_1 : ℚ
  payback_months : ℚ
  roi_percentage : ℚ
  deriving DecidableEq, Repr

/-- Embedding of `EnhancedSimulationEngine.calculate_inventory_optimization`. -/
def calculate_inventory_optimization (baseline : EnhancedBaselineModel)
    (automation_level : ℚ) : InventoryOptResult :=
  let turnover_improvement := 0.20 * automation_level
  let carrying_cost_reduction := 0.20 * automation_level
  let obsolescence_reduction := 0.25 * automation_level
  let carrying_cost_savings := baseline.cost_breakdown.carrying_cost * carrying_cost_reduction
  let storage_savings := baseline.cost_breakdown.storage_cost * (turnover_improvement * 0.5)
  let obsolescence_savings := baseline.cost_breakdown.obsolescence_cost * obsolescence_reduction
  let inventory_value := baseline.cogs * 0.25
  let working_capital_freed := inventory_value * turnover_improvement
  let working_capital_benefit := working_capital_freed * 0.08
  let system_cost := baseline.revenue * 0.008 * automation_level
  let training_cost := (baseline.employee_count : ℚ) * 500 * automation_level
  let total_annual_savings :=
    carrying_cost_savings + storage_savings + obsolescence_savings + working_capital_benefit
  let net_savings_year_1 := total_annual_savings - system_cost - training_cost
  { carrying_cost_savings := carrying_cost_savings
    storage_savings := storage_savings
    obsolescence_savings := obsolescence_savings
    working_capital_benefit := working_capital_benefit
    working_capital_freed := working_capital_freed
    total_annual_savings := total_annual_savings
    system_cost := system_cost
    training_cost := training_cost
    net_savings_year_1 := net_savings_year_1
    payback_months :=
      if total_annual_savings > 0 then
        (system_cost + training_cost) / (total_annual_savings / 12)
      else 999
    roi_percentage :=
      if (system_cost + training_cost) > 0 then
        net_savings_year_1 / (system_cost + training_cost) * 100
      else 0 }

/-- Result dictionary of `calculate_service_automation`. -/
structure ServiceOptResult where
  agent_cost_savings : ℚ
  productivity_savings : ℚ
  system_efficiency_savings : ℚ
  total_annual_savings : ℚ
  automation_platform_cost : ℚ
  setup_cost : ℚ
  net_savings_year_1 : ℚ
  payback_months : ℚ
  roi_percentage : ℚ
  deriving DecidableEq, Repr

/-- Embedding of `EnhancedSimulationEngine.calculate_service_automation`. -/
def calculate_service_automation (baseline : EnhancedBaselineModel)
    (automation_level : ℚ) : ServiceOptResult :=
  let automation_rate := 0.60 * automation_level
  let productivity_gain := 0.40 * automation_level
  let cost_reduction := 0.50 * automation_level
  let agent_cost_savings := baseline.cost_breakdown.agent_salaries * (automation_rate * 0.6)
  let productivity_savings := baseline.cost_breakdown.agent_salaries * productivity_gain
  let system_efficiency_savings := baseline.cost_breakdown.system_costs * cost_reduction
  let automation_platform_cost := baseline.revenue * 0.005 * automation_level
  let setup_cost := 15000 * automation_level
  let total_annual_savings := agent_cost_savings + productivity_savings + system_efficiency_savings
  let net_savings_year_1 := total_annual_savings - automation_platform_cost - setup_cost
  { agent_cost_savings := agent_cost_savings
    productivity_savings := productivity_savings
    system_efficiency_savings := system_efficiency_savings
    total_annual_savings := total_annual_savings
    automation_platform_cost := automation_platform_cost
    setup_cost := setup_cost
    net_savings_year_1 := net_savings_year_1
    payback_months :=
      if total_annual_savings > 0 then
        (automation_platform_cost + setup_cost) / (total_annual_savings / 12)
      else 999
    roi_percentage :=
      if (automation_platform_cost + setup_cost) > 0 then
        net_savings_year_1 / (automation_platform_cost + setup_cost) * 100
      else 0 }

/-- Month-by-month financial projection (dataclass `MonthlyProjection`). -/
structure MonthlyProjection where
  month : ℕ
  revenue : ℚ := 0
  labor_costs : ℚ := 0
  quality_costs : ℚ := 0
  inventory_costs : ℚ := 0
  service_costs : ℚ := 0
  implementation_costs : ℚ := 0
  labor_savings : ℚ := 0
  quality_savings : ℚ := 0
  inventory_savings : ℚ := 0
  service_savings : ℚ := 0
  total_savings : ℚ := 0
  monthly_cash_flow : ℚ := 0
  cumulative_cash_flow : ℚ := 0
  roi_to_date : ℚ := 0
  payback_achieved : Bool := false
  deriving DecidableEq, Repr

/-- Embedding of `EnhancedSimulationEngine._calculate_ramp_factor`. -/
def _calculate_ramp_factor (month implementation_months ramp_months : ℕ) : ℚ :=
  if month ≤ implementation_months then (month : ℚ) / (implementation_months : ℚ)
  else if month ≤ implementation_months + ramp_months then
    1.0 + ((month : ℚ) - (implementation_months : ℚ)) / (ramp_months : ℚ) * 0.2
  else 1.2

/-- The `automation_levels` dict passed to `generate_monthly_projections`:
each of the four known keys may be present or absent. -/
structure AutomationLevels where
  labor : Option ℚ := none
  quality : Option ℚ := none
  inventory : Option ℚ := none
  service : Option ℚ := none
  deriving DecidableEq, Repr

/-- Monthly savings for a given month, exactly as the loop body of
`generate_monthly_projections` computes them from the four annual-savings
figures and the per-category ramp factors. -/
def monthlySavings (laborA qualityA inventoryA serviceA : ℚ) (month : ℕ) : ℚ :=
  laborA / 12 * _calculate_ramp_factor month 4 2 +
  qualityA / 12 * _calculate_ramp_factor month 6 4 +
  inventoryA / 12 * _calculate_ramp_factor month 3 2 +
  serviceA / 12 * _calculate_ramp_factor month 2 1

/-- Implementation cost charged in a given month: the loop charges
`total_implementation_cost / 6` in months 1..6 and nothing after. -/
def monthlyImplCost (total_implementation_cost : ℚ) (month : ℕ) : ℚ :=
  if month ≤ 6 then total_implementation_cost / 6 else 0

/-- One projection record of the loop body of `generate_monthly_projections`,
given the already-updated accumulators `ccf` (cumulative cash flow) and
`csav` (cumulative savings). -/
def mkProjection (baseline : EnhancedBaselineModel)
    (laborA qualityA inventoryA serviceA tic : ℚ)
    (month : ℕ) (ccf csav : ℚ) : MonthlyProjection :=
  { month := month
    revenue := baseline.revenue / 12
    labor_costs := baseline.labor_costs / 12
    quality_costs := baseline.cost_breakdown.rework_cost + baseline.cost_breakdown.scrap_cost / 12
    inventory_costs := baseline.cost_breakdown.carrying_cost / 12
    service_costs := baseline.cost_breakdown.agent_salaries / 12
    implementation_costs := monthlyImplCost tic month
    labor_savings := laborA / 12 * _calculate_ramp_factor month 4 2
    quality_savings := qualityA / 12 * _calculate_ramp_factor month 6 4
    inventory_savings := inventoryA / 12 * _calculate_ramp_factor month 3 2
    service_savings := serviceA / 12 * _calculate_ramp_factor month 2 1
    total_savings := monthlySavings laborA qualityA inventoryA serviceA month
    monthly_cash_flow :=
      monthlySavings laborA qualityA inventoryA serviceA month - monthlyImplCost tic month
    cumulative_cash_flow := ccf
    roi_to_date := if tic > 0 then (csav - tic) / tic * 100 else 0
    payback_achieved := decide (ccf ≥ 0) }

/-- The projection loop of `generate_monthly_projections`: `n` months left,
current month number, and the two running accumulators. -/
def projectionLoop (baseline : EnhancedBaselineModel)
    (laborA qualityA inventoryA serviceA tic : ℚ) :
    ℕ → ℕ → ℚ → ℚ → List MonthlyProjection
  | 0, _, _, _ => []
  | n + 1, month, ccf, csav =>
    let ms := monthlySavings laborA qualityA inventoryA serviceA month
    let mic := monthlyImplCost tic month
    let ccf2 := ccf + (ms - mic)
    let csav2 := csav + ms
    mkProjection baseline laborA qualityA inventoryA serviceA tic month ccf2 csav2 ::
      projectionLoop baseline laborA qualityA inventoryA serviceA tic n (month + 1) ccf2 csav2

/-- Total implementation cost summed over the four optimizations, as
`generate_monthly_projections` computes it. -/
def totalImplementationCost (baseline : EnhancedBaselineModel)
    (levels : AutomationLevels) : ℚ :=
  let labor_opt := calculate_labor_optimization baseline (levels.labor.getD 0.5)
  let quality_opt := calculate_quality_optimization baseline (levels.quality.getD 0.5)
  let inventory_opt := calculate_inventory_optimization baseline (levels.inventory.getD 0.5)
  let service_opt := calculate_service_automation baseline (levels.service.getD 0.5)
  labor_opt.implementation_cost + labor_opt.training_cost +
    quality_opt.quality_system_cost + quality_opt.training_cost +
    inventory_opt.system_cost + inventory_opt.training_cost +
    service_opt.automation_platform_cost + service_opt.setup_cost

/-- Embedding of `EnhancedSimulationEngine.generate_monthly_projections`. -/
def generate_monthly_projections (baseline : EnhancedBaselineModel)
    (automation_levels : AutomationLevels) (months : ℕ) : List MonthlyProjection :=
  let labor_opt := calculate_labor_optimization baseline (automation_levels.labor.getD 0.5)
  let quality_opt := calculate_quality_optimization baseline (automation_levels.quality.getD 0.5)
  let inventory_opt := calculate_inventory_optimization baseline (automation_levels.inventory.getD 0.5)
  let service_opt := calculate_service_automation baseline (automation_levels.service.getD 0.5)
  let tic := totalImplementationCost baseline automation_levels
  projectionLoop baseline labor_opt.total_annual_savings quality_opt.total_annual_savings
    inventory_opt.total_annual_savings service_opt.total_annual_savings tic
    months 1 (-tic) 0

/-- Break-even analysis result (subset of the dictionary returned by
`analyze_break_even`; the wall-clock `break_even_date` field is omitted). -/
structure BreakEvenResult where
  break_even_month : Option ℕ
  total_investment : ℚ
  total_savings : ℚ
  net_benefit : ℚ
  payback_achieved : Bool
  average_monthly_savings : ℚ
  annual_roi : ℚ
  three_year_roi : ℚ
  five_year_roi : ℚ
  payback_months : ℚ
  deriving DecidableEq, Repr

/-- The scanning loop of `analyze_break_even`: accumulate positive
implementation costs, and stop (Python `break`) at the first projection whose
cumulative cash flow is non-negative. Returns the break-even month (if hit)
and the investment accumulated up to the stopping point. -/
def findBreakEven : List MonthlyProjection → ℚ → Option ℕ × ℚ
  | [], total_investment => (none, total_investment)
  | p :: ps, total_investment =>
    let ti2 := if p.implementation_costs > 0 then total_investment + p.implementation_costs
               else total_investment
    if p.cumulative_cash_flow ≥ 0 then (some p.month, ti2)
    else findBreakEven ps ti2

/-- Embedding of `EnhancedSimulationEngine.analyze_break_even`. -/
def analyze_break_even (projections : List MonthlyProjection) : BreakEvenResult :=
  let scan := findBreakEven projections 0
  let break_even_month := scan.1
  let total_investment := scan.2
  match projections with
  | [] =>
    { break_even_month := none
      total_investment := 0
      total_savings := 0
      net_benefit := 0
      payback_achieved := false
      average_monthly_savings := 0
      annual_roi := 0
      three_year_roi := 0
      five_year_roi := 0
      payback_months := 999 }
  | _ :: _ =>
    let total_savings := (projections.map (·.total_savings)).sum
    let net_benefit := total_savings - total_investment
    let annual_savings :=
      if projections.length ≥ 12 then ((projections.take 12).map (·.total_savings)).sum
      else total_savings
    let annual_roi :=
      if total_investment > 0 then (annual_savings - total_investment) / total_investment * 100
      else 0
    let three_year_months := min 36 projections.length
    let three_year_savings := ((projections.take three_year_months).map (·.total_savings)).sum
    let three_year_roi :=
      if total_investment > 0 then
        (three_year_savings - total_investment) / total_investment * 100
      else 0
    let five_year_savings :=
      if projections.length ≥ 60 then ((projections.take 60).map (·.total_savings)).sum
      else if projections.length ≥ 12 then annual_savings / 12 * 60
      else if projections.length > 0 then total_savings / (projections.length : ℚ) * 60
      else 0
    let five_year_roi :=
      if total_investment > 0 then
        (five_year_savings - total_investment) / total_investment * 100
      else 0
    { break_even_month := break_even_month
      total_investment := total_investment
      total_savings := total_savings
      net_benefit := net_benefit
      payback_achieved := break_even_month.isSome
      average_monthly_savings := total_savings / (projections.length : ℚ)
      annual_roi := annual_roi
      three_year_roi := three_year_roi
      five_year_roi := five_year_roi
      payback_months := (break_even_month.getD projections.length : ℚ) }

/-- Substring test, modelling Python's `in` operator on strings. -/
def containsSub (s pat : String) : Bool := decide (pat.toList <:+: s.toList)

/-- Lower-casing modelled character by character, matching Python's
`str.lower()` on the ASCII bucket strings this engine compares against. -/
def strLower (s : String) : String := ⟨s.data.map Char.toLower⟩

/-- Embedding of `EnhancedSimulationEngine._parse_production_volume`. -/
def _parse_production_volume (volume_str : String) : ℤ :=
  if containsSub volume_str "< 100" || containsSub (strLower volume_str) "under" then 50 * 250
  else if containsSub volume_str "100-1000" then 500 * 250
  else if containsSub volume_str "1000-10000" then 5000 * 250
  else if containsSub volume_str "> 10000" || containsSub (strLower volume_str) "over" then
    15000 * 250
  else 500000

/-- Embedding of `EnhancedSimulationEngine._parse_employee_count`. -/
def _parse_employee_count (employee_str : String) : ℤ :=
  if containsSub employee_str "1-10" then 5
  else if containsSub employee_str "11-50" then 25
  else if containsSub employee_str "51-200" then 100
  else if containsSub employee_str "200+" || containsSub (strLower employee_str) "over" then 300
  else 25

/-! Spec-side definitions, written from the specification's words, to be
compared against the embedded code. -/

/-- Written from the spec's words for the break-even analyzer: the sum of all
non-zero `implementationCostThisMonth` entries of the whole sequence. -/
def sumNonZeroImplementationCosts (ps : List MonthlyProjection) : ℚ :=
  ((ps.filter (fun p => p.implementation_costs ≠ 0)).map (·.implementation_costs)).sum

/-- Sum of the positive implementation-cost entries of a projection list
(the scanning loop of `analyze_break_even` accumulates exactly these). -/
def sumPositiveImplementationCosts (ps : List MonthlyProjection) : ℚ :=
  ((ps.filter (fun p => p.implementation_costs > 0)).map (·.implementation_costs)).sum

/-- The prefix of a projection list actually visited by the scanning loop of
`analyze_break_even`: everything up to and including the first projection
whose cumulative cash flow is non-negative (the loop breaks there). -/
def scannedProjections : List MonthlyProjection → List MonthlyProjection
  | [] => []
  | p :: ps =>
    if p.cumulative_cash_flow ≥ 0 then [p] else p :: scannedProjections ps

/-- Written from the spec's words for the five-year ROI: when fewer than 60
months are available, extrapolate from the average monthly savings over all
available projection months. -/
def fiveYearRoiClaimed (ps : List MonthlyProjection) : ℚ :=
  let ti := (analyze_break_even ps).total_investment
  let fys :=
    if ps.length ≥ 60 then ((ps.take 60).map (·.total_savings)).sum
    else ((ps.map (·.total_savings)).sum / (ps.length : ℚ)) * 60
  (fys - ti) / ti * 100

/-- Written from the spec's words for the quality calculator: total annual
savings composed of exactly the rework, scrap and inspection mechanisms. -/
def qualityTotalSavingsClaimed (r : QualityOptResult) : ℚ :=
  r.rework_savings + r.scrap_savings + r.inspection_savings

/-- The per-calculator division-safety contract of the spec: sentinel 999
months payback when annual savings are non-positive, the payback ratio
otherwise; 0% ROI when the one-time cost is zero, the ROI ratio otherwise. -/
def divisionSafe (total_one_time_cost total_annual_savings net_savings_year_1
    payback_months roi_percentage : ℚ) : Prop :=
  (total_annual_savings ≤ 0 → payback_months = 999) ∧
  (0 < total_annual_savings →
    payback_months = total_one_time_cost / (total_annual_savings / 12)) ∧
  (total_one_time_cost = 0 → roi_percentage = 0) ∧
  (total_one_time_cost ≠ 0 →
    roi_percentage = net_savings_year_1 / total_one_time_cost * 100)

/-- Monthly total savings of the projection loop for a baseline and an
automation-levels map, as a function of the month number. -/
def monthSavingsOf (b : EnhancedBaselineModel) (levels : AutomationLevels) (month : ℕ) : ℚ :=
  monthlySavings
    (calculate_labor_optimization b (levels.labor.getD 0.5)).total_annual_savings
    (calculate_quality_optimization b (levels.quality.getD 0.5)).total_annual_savings
    (calculate_inventory_optimization b (levels.inventory.getD 0.5)).total_annual_savings
    (calculate_service_automation b (levels.service.getD 0.5)).total_annual_savings
    month

/-! Concrete inputs used as witnesses and counterexamples. -/

/-- Golden-scenario baseline of the spec's concrete regression input. -/
def goldenBaseline : EnhancedBaselineModel :=
  { revenue := 5000000
    cogs := 3000000
    labor_costs := 1200000
    overhead_costs := 500000
    production_volume := _parse_production_volume "1000-10000 units/day"
    employee_count := _parse_employee_count "51-200 employees"
    automation_level := "Some automated tools" }

/-- A baseline whose savings dwarf its implementation cost, so the generated
cash flow breaks even in month 1, before the 6-month cost spread ends. -/
def earlyBreakEvenBaseline : EnhancedBaselineModel :=
  { revenue := 1000
    cogs := 0
    labor_costs := 10000000
    overhead_costs := 0
    production_volume := 500000
    employee_count := 0
    automation_level := "unknown" }

/-- A baseline with COGS only, giving a non-zero warranty cost. -/
def warrantyBaseline : EnhancedBaselineModel :=
  { revenue := 0
    cogs := 100
    labor_costs := 0
    overhead_costs := 0
    production_volume := 500000
    employee_count := 0
    automation_level := "unknown" }

/-- A small all-zero baseline used to instantiate universally quantified
theorems at a concrete input. -/
def zeroBaseline : EnhancedBaselineModel :=
  { revenue := 0
    cogs := 0
    labor_costs := 0
    overhead_costs := 0
    production_volume := 0
    employee_count := 0
    automation_level := "unknown" }

/-- Hand-made projection record for feeding `analyze_break_even` directly
(the remaining fields keep their dataclass defaults). -/
def mkTestProjection (month : ℕ) (impl sav ccf : ℚ) : MonthlyProjection :=
  { month := month
    implementation_costs := impl
    total_savings := sav
    cumulative_cash_flow := ccf }

/-- A 13-month projection list whose savings are concentrated in month 13:
the average of the first 12 months (0) differs from the average over all 13
months. Cumulative cash flow stays negative so the scan never breaks. -/
def unevenProjections : List MonthlyProjection :=
  [mkTestProjection 1 1 0 (-1), mkTestProjection 2 0 0 (-1), mkTestProjection 3 0 0 (-1),
   mkTestProjection 4 0 0 (-1), mkTestProjection 5 0 0 (-1), mkTestProjection 6 0 0 (-1),
   mkTestProjection 7 0 0 (-1), mkTestProjection 8 0 0 (-1), mkTestProjection 9 0 0 (-1),
   mkTestProjection 10 0 0 (-1), mkTestProjection 11 0 0 (-1), mkTestProjection 12 0 0 (-1),
   mkTestProjection 13 0 1200 (-1)]

/-- A single-month projection list with positive investment and fewer than 12
months, for instantiating the five-year ROI theorem. -/
def shortProjections : List MonthlyProjection :=
  [mkTestProjection 1 1 5 (-1)]

/-! Theorems. -/

/-- The medium employee bucket parses to 100 employees. -/
lemma parse_emp_mid : _parse_employee_count "51-200 employees" = 100 := by decide

/-- The mid production-volume bucket parses to 1,250,000 annual units. -/
lemma parse_vol_mid : _parse_production_volume "1000-10000 units/day" = 1250000 := by decide

/-- C1: for a baseline with non-negative aggregates `(R, C, L, O)`, the
labor sub-costs sum to `L`, the quality sub-costs to `0.15·C`, the inventory
sub-costs to `0.25·O`, and the service sub-costs to `0.10·O` (exactly, in ℚ). -/
theorem claim_C1 (b : EnhancedBaselineModel)
    (hR : 0 ≤ b.revenue) (hC : 0 ≤ b.cogs) (hL : 0 ≤ b.labor_costs) (hO : 0 ≤ b.overhead_costs) :
    b.cost_breakdown.direct_labor_cost + b.cost_breakdown.indirect_labor_cost +
      b.cost_breakdown.overtime_cost + b.cost_breakdown.benefits_cost = b.labor_costs ∧
    b.cost_breakdown.rework_cost + b.cost_breakdown.scrap_cost +
      b.cost_breakdown.inspection_cost + b.cost_breakdown.warranty_cost = 0.15 * b.cogs ∧
    b.cost_breakdown.carrying_cost + b.cost_breakdown.storage_cost +
      b.cost_breakdown.obsolescence_cost + b.cost_breakdown.insurance_cost
        = 0.25 * b.overhead_costs ∧
    b.cost_breakdown.agent_salaries + b.cost_breakdown.system_costs +
      b.cost_breakdown.training_costs = 0.10 * b.overhead_costs := by
  refine ⟨?_, ?_, ?_, ?_⟩ <;>
    simp only [EnhancedBaselineModel.cost_breakdown, _calculate_detailed_costs] <;>
    norm_num <;> ring

/-- Witness for C1 at the golden baseline. -/
theorem claim_C1_witness :
    goldenBaseline.cost_breakdown.direct_labor_cost +
      goldenBaseline.cost_breakdown.indirect_labor_cost +
      goldenBaseline.cost_breakdown.overtime_cost +
      goldenBaseline.cost_breakdown.benefits_cost = goldenBaseline.labor_costs ∧
    goldenBaseline.cost_breakdown.rework_cost + goldenBaseline.cost_breakdown.scrap_cost +
      goldenBaseline.cost_breakdown.inspection_cost +
      goldenBaseline.cost_breakdown.warranty_cost = 0.15 * goldenBaseline.cogs ∧
    goldenBaseline.cost_breakdown.carrying_cost + goldenBaseline.cost_breakdown.storage_cost +
      goldenBaseline.cost_breakdown.obsolescence_cost +
      goldenBaseline.cost_breakdown.insurance_cost = 0.25 * goldenBaseline.overhead_costs ∧
    goldenBaseline.cost_breakdown.agent_salaries + goldenBaseline.cost_breakdown.system_costs +
      goldenBaseline.cost_breakdown.training_costs = 0.10 * goldenBaseline.overhead_costs :=
  claim_C1 goldenBaseline (by norm_num [goldenBaseline]) (by norm_num [goldenBaseline])
    (by norm_num [goldenBaseline]) (by norm_num [goldenBaseline])

/-- C3 counterexample: at a COGS-only baseline with full automation, the
quality calculator's total annual savings are NOT the sum of only the rework,
scrap and inspection mechanisms; the warranty cost also receives
defect-reduction savings. -/
theorem claim_C3_counterexample :
    (calculate_quality_optimization warrantyBaseline 1).total_annual_savings ≠
      qualityTotalSavingsClaimed (calculate_quality_optimization warrantyBaseline 1) ∧
    (calculate_quality_optimization warrantyBaseline 1).warranty_savings ≠ 0 := by
  norm_num [calculate_quality_optimization, qualityTotalSavingsClaimed, warrantyBaseline,
    EnhancedBaselineModel.cost_breakdown, _calculate_detailed_costs]

/-- C3 amended: the defect-reduction rate (50% × automationLevel) is applied
at 30% weight to the inspection cost AND at full weight to the warranty cost,
and the total annual savings consist of exactly the rework, scrap,
inspection, and warranty mechanisms. -/
theorem claim_C3_amended (b : EnhancedBaselineModel) (a : ℚ) :
    (calculate_quality_optimization b a).total_annual_savings =
      (calculate_quality_optimization b a).rework_savings +
      (calculate_quality_optimization b a).scrap_savings +
      (calculate_quality_optimization b a).inspection_savings +
      (calculate_quality_optimization b a).warranty_savings ∧
    (calculate_quality_optimization b a).inspection_savings =
      b.cost_breakdown.inspection_cost * (0.50 * a * 0.3) ∧
    (calculate_quality_optimization b a).warranty_savings =
      b.cost_breakdown.warranty_cost * (0.50 * a) := by
  refine ⟨?_, ?_, ?_⟩ <;> simp [calculate_quality_optimization]

/-- C8: the golden scenario (revenue 5M, COGS 3M, labor 1.2M, overhead 0.5M,
employee bucket parsed to 100) yields strictly positive labor savings and a
finite payback below the 999 sentinel at automation level 0.5. -/
theorem claim_C8 :
    (calculate_labor_optimization goldenBaseline 0.5).total_annual_savings > 0 ∧
    (calculate_labor_optimization goldenBaseline 0.5).payback_months < 999 := by
  norm_num [calculate_labor_optimization, goldenBaseline,
    EnhancedBaselineModel.cost_breakdown, _calculate_detailed_costs, parse_emp_mid, parse_vol_mid]

/-- C9: a production-volume answer matching none of the recognized patterns
parses to the default 500,000 annual units, and an employee-count answer
matching none of the recognized patterns parses to the default 25; both
parsers are total functions, so no input raises. -/
theorem claim_C9 (vs es : String)
    (h1 : containsSub vs "< 100" = false)
    (h2 : containsSub (strLower vs) "under" = false)
    (h3 : containsSub vs "100-1000" = false)
    (h4 : containsSub vs "1000-10000" = false)
    (h5 : containsSub vs "> 10000" = false)
    (h6 : containsSub (strLower vs) "over" = false)
    (h7 : containsSub es "1-10" = false)
    (h8 : containsSub es "11-50" = false)
    (h9 : containsSub es "51-200" = false)
    (h10 : containsSub es "200+" = false)
    (h11 : containsSub (strLower es) "over" = false) :
    _parse_production_volume vs = 500000 ∧ _parse_employee_count es = 25 := by
  simp [_parse_production_volume, _parse_employee_count,
    h1, h2, h3, h4, h5, h6, h7, h8, h9, h10, h11]

/-- Witness for C9 at the malformed answer "banana". -/
theorem claim_C9_witness :
    _parse_production_volume "banana" = 500000 ∧ _parse_employee_count "banana" = 25 :=
  claim_C9 "banana" "banana" (by decide) (by decide) (by decide) (by decide) (by decide)
    (by decide) (by decide) (by decide) (by decide) (by decide) (by decide)

/-- C10: the projection generator fills every absent category of the
automation-levels map with 0.5, and with an empty map it produces exactly
the projections of the all-0.5 map. -/
theorem claim_C10 (b : EnhancedBaselineModel) (levels : AutomationLevels) (months : ℕ) :
    generate_monthly_projections b levels months =
      generate_monthly_projections b
        { labor := some (levels.labor.getD 0.5)
          quality := some (levels.quality.getD 0.5)
          inventory := some (levels.inventory.getD 0.5)
          service := some (levels.service.getD 0.5) } months ∧
    generate_monthly_projections b {} months =
      generate_monthly_projections b
        { labor := some 0.5, quality := some 0.5, inventory := some 0.5,
          service := some 0.5 } months :=
  ⟨rfl, rfl⟩


/-- A guarded payback/ROI pair of the shape every calculator returns satisfies
the division-safety contract, provided the one-time cost is non-negative. -/
lemma divisionSafe_of (C S N : ℚ) (hC : 0 ≤ C) :
    divisionSafe C S N (if S > 0 then C / (S / 12) else 999) (if C > 0 then N / C * 100 else 0) := by
  refine ⟨fun h => ?_, fun h => ?_, fun h => ?_, fun h => ?_⟩
  · rw [if_neg (by linarith)]
  · rw [if_pos h]
  · rw [if_neg (by simp [h])]
  · rw [if_pos (lt_of_le_of_ne hC (Ne.symm h))]

/-- C5: each calculator is a total function (no exceptions), and its payback
and ROI fields obey the sentinel contract: 999 months when annual savings are
non-positive, 0% ROI when the one-time cost is zero, the exact ratios
otherwise. -/
theorem claim_C5 (b : EnhancedBaselineModel) (a : ℚ)
    (ha0 : 0 ≤ a) (ha1 : a ≤ 1) (hR : 0 ≤ b.revenue) (hE : (0 : ℤ) ≤ b.employee_count) :
    divisionSafe
      ((calculate_labor_optimization b a).training_cost +
        (calculate_labor_optimization b a).implementation_cost)
      (calculate_labor_optimization b a).total_annual_savings
      (calculate_labor_optimization b a).net_savings_year_1
      (calculate_labor_optimization b a).payback_months
      (calculate_labor_optimization b a).roi_percentage ∧
    divisionSafe
      ((calculate_quality_optimization b a).quality_system_cost +
        (calculate_quality_optimization b a).training_cost)
      (calculate_quality_optimization b a).total_annual_savings
      (calculate_quality_optimization b a).net_savings_year_1
      (calculate_quality_optimization b a).payback_months
      (calculate_quality_optimization b a).roi_percentage ∧
    divisionSafe
      ((calculate_inventory_optimization b a).system_cost +
        (calculate_inventory_optimization b a).training_cost)
      (calculate_inventory_optimization b a).total_annual_savings
      (calculate_inventory_optimization b a).net_savings_year_1
      (calculate_inventory_optimization b a).payback_months
      (calculate_inventory_optimization b a).roi_percentage ∧
    divisionSafe
      ((calculate_service_automation b a).automation_platform_cost +
        (calculate_service_automation b a).setup_cost)
      (calculate_service_automation b a).total_annual_savings
      (calculate_service_automation b a).net_savings_year_1
      (calculate_service_automation b a).payback_months
      (calculate_service_automation b a).roi_percentage := by
  have hE' : (0 : ℚ) ≤ (b.employee_count : ℚ) := by exact_mod_cast hE
  refine ⟨?_, ?_, ?_, ?_⟩
  · simp only [calculate_labor_optimization]
    refine divisionSafe_of _ _ _ ?_
    have hb : (0:ℚ) ≤ (if b.employee_count < 50 then (800:ℚ) else 1200) := by
      split_ifs <;> norm_num
    have hm : (0:ℚ) ≤ (if b.employee_count > 200 then (0.015:ℚ)
        else if b.employee_count < 25 then 0.025 else 0.02) := by
      split_ifs <;> norm_num
    exact add_nonneg (mul_nonneg (mul_nonneg hE' hb) ha0)
      (mul_nonneg (mul_nonneg hR hm) ha0)
  · simp only [calculate_quality_optimization]
    refine divisionSafe_of _ _ _ ?_
    have hm : (0:ℚ) ≤ (if b.production_volume > 1000000 then (0.008:ℚ)
        else if b.production_volume < 100000 then 0.015 else 0.012) := by
      split_ifs <;> norm_num
    exact add_nonneg (mul_nonneg (mul_nonneg hR hm) ha0)
      (mul_nonneg (mul_nonneg hE' (by norm_num)) ha0)
  · simp only [calculate_inventory_optimization]
    refine divisionSafe_of _ _ _ ?_
    exact add_nonneg (mul_nonneg (mul_nonneg hR (by norm_num)) ha0)
      (mul_nonneg (mul_nonneg hE' (by norm_num)) ha0)
  · simp only [calculate_service_automation]
    refine divisionSafe_of _ _ _ ?_
    exact add_nonneg (mul_nonneg (mul_nonneg hR (by norm_num)) ha0)
      (mul_nonneg (by norm_num : (0:ℚ) ≤ 15000) ha0)

/-- C6: for a fixed baseline with non-negative aggregates, the total annual
savings of each of the four calculators is non-decreasing in the automation
level on [0,1]. -/
theorem claim_C6 (b : EnhancedBaselineModel) (a1 a2 : ℚ)
    (h0 : 0 ≤ a1) (h12 : a1 ≤ a2) (h1 : a2 ≤ 1)
    (hL : 0 ≤ b.labor_costs) (hC : 0 ≤ b.cogs) (hO : 0 ≤ b.overhead_costs) :
    (calculate_labor_optimization b a1).total_annual_savings ≤
      (calculate_labor_optimization b a2).total_annual_savings ∧
    (calculate_quality_optimization b a1).total_annual_savings ≤
      (calculate_quality_optimization b a2).total_annual_savings ∧
    (calculate_inventory_optimization b a1).total_annual_savings ≤
      (calculate_inventory_optimization b a2).total_annual_savings ∧
    (calculate_service_automation b a1).total_annual_savings ≤
      (calculate_service_automation b a2).total_annual_savings := by
  have hLa : b.labor_costs * a1 ≤ b.labor_costs * a2 := mul_le_mul_of_nonneg_left h12 hL
  have hCa : b.cogs * a1 ≤ b.cogs * a2 := mul_le_mul_of_nonneg_left h12 hC
  have hOa : b.overhead_costs * a1 ≤ b.overhead_costs * a2 := mul_le_mul_of_nonneg_left h12 hO
  refine ⟨?_, ?_, ?_, ?_⟩ <;>
    simp only [calculate_labor_optimization, calculate_quality_optimization,
      calculate_inventory_optimization, calculate_service_automation,
      EnhancedBaselineModel.cost_breakdown, _calculate_detailed_costs] <;>
    (try split_ifs)
  all_goals nlinarith [hLa, hCa, hOa]

/-- Witness for C5 at the zero baseline and automation level 0.5. -/
theorem claim_C5_witness :
    divisionSafe
      ((calculate_labor_optimization zeroBaseline 0.5).training_cost +
        (calculate_labor_optimization zeroBaseline 0.5).implementation_cost)
      (calculate_labor_optimization zeroBaseline 0.5).total_annual_savings
      (calculate_labor_optimization zeroBaseline 0.5).net_savings_year_1
      (calculate_labor_optimization zeroBaseline 0.5).payback_months
      (calculate_labor_optimization zeroBaseline 0.5).roi_percentage ∧
    divisionSafe
      ((calculate_quality_optimization zeroBaseline 0.5).quality_system_cost +
        (calculate_quality_optimization zeroBaseline 0.5).training_cost)
      (calculate_quality_optimization zeroBaseline 0.5).total_annual_savings
      (calculate_quality_optimization zeroBaseline 0.5).net_savings_year_1
      (calculate_quality_optimization zeroBaseline 0.5).payback_months
      (calculate_quality_optimization zeroBaseline 0.5).roi_percentage ∧
    divisionSafe
      ((calculate_inventory_optimization zeroBaseline 0.5).system_cost +
        (calculate_inventory_optimization zeroBaseline 0.5).training_cost)
      (calculate_inventory_optimization zeroBaseline 0.5).total_annual_savings
      (calculate_inventory_optimization zeroBaseline 0.5).net_savings_year_1
      (calculate_inventory_optimization zeroBaseline 0.5).payback_months
      (calculate_inventory_optimization zeroBaseline 0.5).roi_percentage ∧
    divisionSafe
      ((calculate_service_automation zeroBaseline 0.5).automation_platform_cost +
        (calculate_service_automation zeroBaseline 0.5).setup_cost)
      (calculate_service_automation zeroBaseline 0.5).total_annual_savings
      (calculate_service_automation zeroBaseline 0.5).net_savings_year_1
      (calculate_service_automation zeroBaseline 0.5).payback_months
      (calculate_service_automation zeroBaseline 0.5).roi_percentage :=
  claim_C5 zeroBaseline 0.5 (by norm_num) (by norm_num)
    (by norm_num [zeroBaseline]) (by norm_num [zeroBaseline])

/-- Witness for C6 at the golden baseline with automation levels 0 and 1. -/
theorem claim_C6_witness :
    (calculate_labor_optimization goldenBaseline 0).total_annual_savings ≤
      (calculate_labor_optimization goldenBaseline 1).total_annual_savings ∧
    (calculate_quality_optimization goldenBaseline 0).total_annual_savings ≤
      (calculate_quality_optimization goldenBaseline 1).total_annual_savings ∧
    (calculate_inventory_optimization goldenBaseline 0).total_annual_savings ≤
      (calculate_inventory_optimization goldenBaseline 1).total_annual_savings ∧
    (calculate_service_automation goldenBaseline 0).total_annual_savings ≤
      (calculate_service_automation goldenBaseline 1).total_annual_savings :=
  claim_C6 goldenBaseline 0 1 (by norm_num) (by norm_num) (by norm_num)
    (by norm_num [goldenBaseline]) (by norm_num [goldenBaseline]) (by norm_num [goldenBaseline])


/-- Unfolding lemma: the positive-entry sum over a cons cell. -/
lemma sumPos_cons (p : MonthlyProjection) (l : List MonthlyProjection) :
    sumPositiveImplementationCosts (p :: l) =
      (if p.implementation_costs > 0 then p.implementation_costs else 0) +
        sumPositiveImplementationCosts l := by
  simp only [sumPositiveImplementationCosts, List.filter_cons, decide_eq_true_eq]
  split_ifs with h
  · simp
  · simp

/-- The scanning loop returns its accumulator plus the positive
implementation costs of exactly the scanned prefix. -/
lemma findBreakEven_snd : ∀ (ps : List MonthlyProjection) (ti : ℚ),
    (findBreakEven ps ti).2 = ti + sumPositiveImplementationCosts (scannedProjections ps) := by
  intro ps
  induction ps with
  | nil =>
    intro ti
    simp [findBreakEven, scannedProjections, sumPositiveImplementationCosts]
  | cons p l ih =>
    intro ti
    simp only [findBreakEven, scannedProjections]
    by_cases hc : p.cumulative_cash_flow ≥ 0
    · rw [if_pos hc, if_pos hc, sumPos_cons]
      simp only [sumPositiveImplementationCosts, List.filter_nil, List.map_nil, List.sum_nil]
      split_ifs with hi <;> ring
    · rw [if_neg hc, if_neg hc]
      rw [ih]
      rw [sumPos_cons]
      split_ifs with hi <;> ring

/-- C2 amended: the analyzer returns the sum of the positive implementation
cost entries of the prefix it scans, which stops at the first month whose
cumulative cash flow is non-negative; only when break-even never occurs is
this the sum over the whole sequence. -/
theorem claim_C2_amended (ps : List MonthlyProjection) :
    (analyze_break_even ps).total_investment =
      sumPositiveImplementationCosts (scannedProjections ps) := by
  cases ps with
  | nil => simp [analyze_break_even, scannedProjections, sumPositiveImplementationCosts]
  | cons p l =>
    simp only [analyze_break_even]
    rw [findBreakEven_snd]
    ring

/-- C2 counterexample: a baseline whose projections break even in month 1
makes the analyzer stop scanning early, so the returned total investment
(one month of spread cost) differs from the sum of all non-zero
implementation-cost entries (six months of spread cost). -/
theorem claim_C2_counterexample :
    (analyze_break_even (generate_monthly_projections earlyBreakEvenBaseline {} 6)).total_investment ≠
      sumNonZeroImplementationCosts
        (generate_monthly_projections earlyBreakEvenBaseline {} 6) := by
  norm_num [sumNonZeroImplementationCosts, analyze_break_even, findBreakEven,
    generate_monthly_projections, totalImplementationCost, earlyBreakEvenBaseline,
    calculate_labor_optimization, calculate_quality_optimization,
    calculate_inventory_optimization, calculate_service_automation,
    EnhancedBaselineModel.cost_breakdown, _calculate_detailed_costs,
    projectionLoop, mkProjection, monthlySavings, monthlyImplCost, _calculate_ramp_factor,
    List.filter, List.map, List.sum]


/-- Closed form of the projection loop: the i-th emitted record carries the
month number `s + i`, the cumulative cash flow accumulated from `ccf` over
the months scanned so far, and likewise the cumulative savings. -/
lemma projectionLoop_getElem (b : EnhancedBaselineModel) (lA qA iA sA tic : ℚ) :
    ∀ (n s : ℕ) (ccf csav : ℚ) (i : ℕ), i < n →
    (projectionLoop b lA qA iA sA tic n s ccf csav)[i]? =
      some (mkProjection b lA qA iA sA tic (s + i)
        (ccf + ∑ k ∈ Finset.Ico s (s + i + 1),
          (monthlySavings lA qA iA sA k - monthlyImplCost tic k))
        (csav + ∑ k ∈ Finset.Ico s (s + i + 1), monthlySavings lA qA iA sA k)) := by
  intro n
  induction n with
  | zero => intro s ccf csav i hi; omega
  | succ n ih =>
    intro s ccf csav i hi
    cases i with
    | zero =>
      simp only [projectionLoop, List.getElem?_cons_zero, Option.some.injEq, Nat.add_zero]
      have hIco : Finset.Ico s (s + 1) = {s} := Nat.Ico_succ_singleton s
      rw [hIco, Finset.sum_singleton, Finset.sum_singleton]
    | succ i =>
      simp only [projectionLoop, List.getElem?_cons_succ]
      rw [ih (s + 1) _ _ i (by omega)]
      have e1 : s + (i + 1) = s + 1 + i := by omega
      rw [e1]
      have hlt : s < s + 1 + i + 1 := by omega
      rw [Finset.sum_eq_sum_Ico_succ_bot hlt, Finset.sum_eq_sum_Ico_succ_bot hlt]
      congr 1
      ring_nf

/-- C4: for any horizon of at least 6 months, month m of the generated
sequence charges totalImplementationCost/6 during months 1..6 and 0 after,
and its cumulative cash flow equals the initial offset
-totalImplementationCost plus the accumulated monthly savings minus the
monthly implementation debits: the investment is booked both as the initial
offset and as monthly debits. -/
theorem claim_C4 (b : EnhancedBaselineModel) (levels : AutomationLevels) (months : ℕ)
    (h6 : 6 ≤ months) (m : ℕ) (h1 : 1 ≤ m) (hm : m ≤ months) :
    ∃ p, (generate_monthly_projections b levels months)[m - 1]? = some p ∧
      p.implementation_costs =
        (if m ≤ 6 then totalImplementationCost b levels / 6 else 0) ∧
      p.total_savings = monthSavingsOf b levels m ∧
      p.cumulative_cash_flow = -(totalImplementationCost b levels) +
        ∑ k ∈ Finset.Icc 1 m,
          (monthSavingsOf b levels k -
            monthlyImplCost (totalImplementationCost b levels) k) := by
  obtain ⟨i, rfl⟩ : ∃ i, m = i + 1 := ⟨m - 1, by omega⟩
  simp only [generate_monthly_projections]
  rw [projectionLoop_getElem b _ _ _ _ _ months 1 _ _ (i + 1 - 1) (by omega)]
  have e0 : 1 + (i + 1 - 1) = i + 1 := by omega
  refine ⟨_, rfl, ?_, ?_, ?_⟩
  · simp only [mkProjection, e0]
    rfl
  · simp only [mkProjection, monthSavingsOf, e0]
  · simp only [mkProjection, monthSavingsOf, monthlyImplCost, e0, Nat.Ico_succ_right]

/-- Witness for C4 at the zero baseline, 6-month horizon, month 1. -/
theorem claim_C4_witness :
    ∃ p, (generate_monthly_projections zeroBaseline {} 6)[1 - 1]? = some p ∧
      p.implementation_costs =
        (if 1 ≤ 6 then totalImplementationCost zeroBaseline {} / 6 else 0) ∧
      p.total_savings = monthSavingsOf zeroBaseline {} 1 ∧
      p.cumulative_cash_flow = -(totalImplementationCost zeroBaseline {}) +
        ∑ k ∈ Finset.Icc 1 1,
          (monthSavingsOf zeroBaseline {} k -
            monthlyImplCost (totalImplementationCost zeroBaseline {}) k) :=
  claim_C4 zeroBaseline {} 6 (by norm_num) 1 (by norm_num) (by norm_num)

/-- C7 amended: with positive total investment, the five-year ROI uses the
sum of months 1..60 when at least 60 months exist; with 12..59 months it
extrapolates from the average of the FIRST 12 months times 60; only with
fewer than 12 months does it use the average over all available months. -/
theorem claim_C7_amended (ps : List MonthlyProjection)
    (hti : 0 < (analyze_break_even ps).total_investment) :
    (60 ≤ ps.length →
      (analyze_break_even ps).five_year_roi =
        (((ps.take 60).map (·.total_savings)).sum -
          (analyze_break_even ps).total_investment) /
          (analyze_break_even ps).total_investment * 100) ∧
    (12 ≤ ps.length → ps.length < 60 →
      (analyze_break_even ps).five_year_roi =
        (((ps.take 12).map (·.total_savings)).sum / 12 * 60 -
          (analyze_break_even ps).total_investment) /
          (analyze_break_even ps).total_investment * 100) ∧
    (0 < ps.length → ps.length < 12 →
      (analyze_break_even ps).five_year_roi =
        ((ps.map (·.total_savings)).sum / (ps.length : ℚ) * 60 -
          (analyze_break_even ps).total_investment) /
          (analyze_break_even ps).total_investment * 100) := by
  cases ps with
  | nil => simp [analyze_break_even, findBreakEven] at hti
  | cons p l =>
    simp only [analyze_break_even] at hti ⊢
    refine ⟨fun h60 => ?_, fun h12 h60 => ?_, fun hl h12 => ?_⟩ <;>
      split_ifs <;> first | rfl | omega

/-- C7 counterexample: a 13-month sequence with all savings in month 13 has
positive total investment, yet the analyzer extrapolates from the first 12
months (average 0), not from the average over all 13 observed months as the
claim states. -/
theorem claim_C7_counterexample :
    0 < (analyze_break_even unevenProjections).total_investment ∧
    (analyze_break_even unevenProjections).five_year_roi ≠
      fiveYearRoiClaimed unevenProjections := by
  norm_num [analyze_break_even, findBreakEven, unevenProjections, mkTestProjection,
    fiveYearRoiClaimed, List.take, List.map, List.sum]

/-- Witness for the amended C7 at a one-month projection list. -/
theorem claim_C7_amended_witness :
    (60 ≤ shortProjections.length →
      (analyze_break_even shortProjections).five_year_roi =
        (((shortProjections.take 60).map (·.total_savings)).sum -
          (analyze_break_even shortProjections).total_investment) /
          (analyze_break_even shortProjections).total_investment * 100) ∧
    (12 ≤ shortProjections.length → shortProjections.length < 60 →
      (analyze_break_even shortProjections).five_year_roi =
        (((shortProjections.take 12).map (·.total_savings)).sum / 12 * 60 -
          (analyze_break_even shortProjections).total_investment) /
          (analyze_break_even shortProjections).total_investment * 100) ∧
    (0 < shortProjections.length → shortProjections.length < 12 →
      (analyze_break_even shortProjections).five_year_roi =
        ((shortProjections.map (·.total_savings)).sum /
            (shortProjections.length : ℚ) * 60 -
          (analyze_break_even shortProjections).total_investment) /
          (analyze_break_even shortProjections).total_investment * 100) :=
  claim_C7_amended shortProjections
    (by norm_num [analyze_break_even, findBreakEven, shortProjections, mkTestProjection])


end EnhancedSim
